import Mathlib

/-!
Shallow embedding of the `schwepe-analyzer` video scheduler
(`src/video-scheduler.js`) and proofs about its claimed properties.

Modelling conventions:
* JS epoch-millisecond timestamps are `Int`.
* JS `Math.floor(a / b)` on integers is `Int.fdiv`; the JS `%` remainder
  operator (sign of the dividend) is `Int.tmod`.
* A JS array is modelled as a total map `Int → Option α`: reading a missing
  index (negative or past the end) yields `undefined`, modelled as `none`,
  and writing any integer key stores a property that later reads see.  This
  is needed because `shuffleArray`'s seeded random index can be negative.
* Fractional config values (`staticDetectionThreshold`) and detection levels
  are modelled as `ℚ`; only order comparisons on them occur in the code, and
  those are order-faithful to the JS doubles involved here.
-/

namespace Schwepe

/-- One step of the linear congruential generator inside `shuffleArray`:
`seed = (seed * 9301 + 49297) % 233280` with JS remainder semantics. -/
def seededNext (seed : Int) : Int :=
  Int.tmod (seed * 9301 + 49297) 233280

/-- The random index drawn for a loop iteration of `shuffleArray`:
`Math.floor(random() * currentIndex)` where `random()` returns
`seed / 233280` for the already-updated `seed`.  For the integer inputs
that occur here the JS double rounding never crosses an integer boundary,
so the floor equals exact floored division. -/
def randIdx (seed : Int) (currentIndex : Nat) : Int :=
  Int.fdiv (seed * currentIndex) 233280

/-- The two JS array objects alive inside `shuffleArray`: the caller's
`array` argument and the local copy `shuffled = [...array]`. -/
structure JSArrays (α : Type) where
  input : Int → Option α
  shuffled : Int → Option α

/-- The destructuring swap
`[shuffled[ci], shuffled[ri]] = [shuffled[ri], shuffled[ci]]`:
both right-hand reads happen before the writes. -/
def swapAt (f : Int → Option α) (i j : Int) : Int → Option α :=
  fun k => if k = i then f j else if k = j then f i else f k

/-- View a JS array (map) as the list of its `n` indexed elements. -/
def readArray (f : Int → Option α) (n : Nat) : List (Option α) :=
  List.ofFn (fun k : Fin n => f ((k : Nat) : Int))

/-- The plain-array view of a Lean list: element reads inside the JS index
range give the element, everything else gives `undefined`. -/
def listToMap (l : List α) : Int → Option α :=
  fun i => if i < 0 then none else l.get? i.toNat

/-- Heap state at the start of `shuffleArray`: the input array plus the
spread copy `shuffled = [...array]`. -/
def initArrays (l : List α) : JSArrays α :=
  { input := listToMap l, shuffled := listToMap l }

/-- The seeded Fisher–Yates loop of `shuffleArray`, with the fuel argument
equal to `currentIndex`.  Each iteration draws the random index from the
pre-decrement `currentIndex`, decrements, and swaps entries of `shuffled`
only. -/
def fyLoop : JSArrays α → Int → Nat → JSArrays α × Int
  | s, seed, 0 => (s, seed)
  | s, seed, k + 1 =>
    let seed' := seededNext seed
    let j := randIdx seed' (k + 1)
    fyLoop { s with shuffled := swapAt s.shuffled (k : Int) j } seed' k

/-- The seeded branch of `shuffleArray(array, seed)` (`seed !== null`):
copy the input, run the Fisher–Yates loop, return the copy's elements.
The `seed === null` branch uses `Math.random()` and is nondeterministic,
hence outside this model. -/
def shuffleArray (arr : List α) (seed : Int) : List (Option α) :=
  readArray ((fyLoop (initArrays arr) seed arr.length).1).shuffled arr.length

/-- The function `generateUTCSeed` evaluated at an instant `t`
(epoch milliseconds) by a host whose `Date` constructor works at a fixed
UTC offset of `tz` minutes in the `getTimezoneOffset` convention
(positive west of UTC).  The code takes the UTC calendar date of `t`,
builds `new Date(Y, M, D)` — local midnight of that date, i.e.
`utcDay * 86400000 + tz * 60000` epoch ms — and floors that by a day to get
`daysSinceEpoch`. -/
def generateUTCSeed (dailySeedReset : Bool) (t : Int) (tz : Int) : Int :=
  if dailySeedReset then
    let utcDay := Int.fdiv t 86400000
    let utcMidnightMs := utcDay * 86400000 + tz * 60000
    let daysSinceEpoch := Int.fdiv utcMidnightMs 86400000
    Int.tmod (daysSinceEpoch * 31) 1000000
  else
    let utcHour := Int.fdiv t 3600000
    Int.tmod (utcHour * 17) 1000000

/-- The mutable `this.schedule` record, with the constructor's field set.
`generated` is `none` for the initial `null`. -/
structure Schedule where
  generated : Option Int
  shuffledOrder : List (Option String)
  currentIndex : Nat
  totalPlayed : Nat
  staticDetected : Bool
  currentVideo : Option String
  deriving DecidableEq, Repr

/-- The `this.config` record.  `shuffleSeed` starts as `null`. -/
structure SchedulerConfig where
  shuffleSeed : Option Int
  scheduleRebuildInterval : Int
  staticDetectionThreshold : ℚ
  maxStaticDuration : Int
  videoTransitionDelay : Int
  regenerateOnBuild : Bool
  timezoneMode : String
  dailySeedReset : Bool
  deriving DecidableEq, Repr

/-- The constructor's default configuration. -/
def defaultConfig : SchedulerConfig :=
  { shuffleSeed := none
    scheduleRebuildInterval := 3600000
    staticDetectionThreshold := 3 / 10
    maxStaticDuration := 5000
    videoTransitionDelay := 2000
    regenerateOnBuild := true
    timezoneMode := "utc"
    dailySeedReset := true }

/-- The constructor's initial (empty) schedule. -/
def initialSchedule : Schedule :=
  { generated := none
    shuffledOrder := []
    currentIndex := 0
    totalPlayed := 0
    staticDetected := false
    currentVideo := none }

/-- A parsed `scheduler-config.json`: each field is present (`some`) or
absent (`none`). -/
structure PartialConfig where
  shuffleSeed : Option Int := none
  scheduleRebuildInterval : Option Int := none
  staticDetectionThreshold : Option ℚ := none
  maxStaticDuration : Option Int := none
  videoTransitionDelay : Option Int := none
  regenerateOnBuild : Option Bool := none
  timezoneMode : Option String := none
  dailySeedReset : Option Bool := none
  deriving DecidableEq, Repr

/-- The merge `this.config = { ...this.config, ...data }` in `loadConfig`:
every key present in the file overwrites the default, with no validation. -/
def mergeConfig (c : SchedulerConfig) (d : PartialConfig) : SchedulerConfig :=
  { shuffleSeed := match d.shuffleSeed with
      | some v => some v
      | none => c.shuffleSeed
    scheduleRebuildInterval := d.scheduleRebuildInterval.getD c.scheduleRebuildInterval
    staticDetectionThreshold := d.staticDetectionThreshold.getD c.staticDetectionThreshold
    maxStaticDuration := d.maxStaticDuration.getD c.maxStaticDuration
    videoTransitionDelay := d.videoTransitionDelay.getD c.videoTransitionDelay
    regenerateOnBuild := d.regenerateOnBuild.getD c.regenerateOnBuild
    timezoneMode := d.timezoneMode.getD c.timezoneMode
    dailySeedReset := d.dailySeedReset.getD c.dailySeedReset }

/-- The function `loadConfig`: `data = none` covers both a missing file and
a caught read error, leaving the current config untouched; otherwise the
parsed record is spread over the current config. -/
def loadConfig (c : SchedulerConfig) (data : Option PartialConfig) : SchedulerConfig :=
  match data with
  | none => c
  | some d => mergeConfig c d

/-- The environment flags read by `generateSchedule`:
`process.env.NODE_ENV === 'production'` and truthiness of
`process.env.BUILD_ENV`. -/
structure EnvFlags where
  nodeEnvProduction : Bool
  buildEnv : Bool
  deriving DecidableEq, Repr

/-- The whole scheduler object: the two records plus the instance fields
`isStaticActive`, and the two timer handles modelled as set/unset flags. -/
structure SchedulerState where
  schedule : Schedule
  config : SchedulerConfig
  isStaticActive : Bool
  staticTimer : Bool
  videoTimer : Bool
  deriving DecidableEq, Repr

/-- The method `stopCurrentVideo`: if a video is current, clear it and any
pending video timer. -/
def stopCurrentVideo (s : SchedulerState) : SchedulerState :=
  if s.schedule.currentVideo.isSome then
    { s with schedule := { s.schedule with currentVideo := none }, videoTimer := false }
  else s

/-- The method `onStaticDetected(level)`: above the threshold it transitions
to suppressed (stopping the current video and arming the persistence timer)
only when not already suppressed; at or below the threshold it clears the
suppressed flag and the timer only when suppressed.  Firing of the armed
`setTimeout` only logs and is not part of the state model. -/
def onStaticDetected (s : SchedulerState) (level : ℚ) : SchedulerState :=
  if s.config.staticDetectionThreshold < level then
    if s.isStaticActive then s
    else
      let s1 := stopCurrentVideo { s with isStaticActive := true }
      { s1 with staticTimer := true }
  else
    if s.isStaticActive then
      { s with isStaticActive := false, staticTimer := false }
    else s

/-- The method `playNextVideo`: returns `null` while static is active or the
order is empty; otherwise serves `shuffledOrder[currentIndex]` (an absent
element reads as `undefined`, i.e. `none`), records it as current,
increments `totalPlayed` and steps the cursor modulo the length.  The
cycle-complete branch only logs. -/
def playNextVideo (s : SchedulerState) : Option String × SchedulerState :=
  if s.isStaticActive then (none, s)
  else if s.schedule.shuffledOrder.length = 0 then (none, s)
  else
    let video := (s.schedule.shuffledOrder.get? s.schedule.currentIndex).join
    let i' := (s.schedule.currentIndex + 1) % s.schedule.shuffledOrder.length
    (video,
      { s with schedule :=
        { s.schedule with
          currentVideo := video
          totalPlayed := s.schedule.totalPlayed + 1
          currentIndex := i' } })

/-- Repeatedly call `playNextVideo`, collecting the returned values. -/
def playN : Nat → SchedulerState → List (Option String) × SchedulerState
  | 0, s => ([], s)
  | k + 1, s =>
    let (v, s') := playNextVideo s
    let (vs, s'') := playN k s'
    (v :: vs, s'')

/-- The method `generateSchedule(forceRegenerate)`, with the catalog read
(`getVideoFiles`), the clock (`Date.now()`), the host UTC offset and the
environment passed explicitly.  JS truthiness of `this.schedule.generated`
treats both `null` and `0` as absent, giving an `Infinity` age. -/
def generateSchedule (s : SchedulerState) (force : Bool) (env : EnvFlags)
    (now : Int) (tz : Int) (videos : List String) : Bool × SchedulerState :=
  if videos.length = 0 then (false, s)
  else
    let genTruthy := match s.schedule.generated with
      | none => false
      | some v => decide (v ≠ 0)
    let scheduleAge : Option Int :=
      if genTruthy then some (now - (s.schedule.generated.getD 0)) else none
    let isBuildEnvironment := env.nodeEnvProduction || env.buildEnv || s.config.regenerateOnBuild
    let ageTrigger := match scheduleAge with
      | none => true
      | some a => decide (a ≥ s.config.scheduleRebuildInterval)
    let shouldRegenerate := force || isBuildEnvironment || !genTruthy ||
      decide (s.schedule.shuffledOrder.length ≠ videos.length) || ageTrigger
    if !shouldRegenerate then (true, s)
    else
      let seed := generateUTCSeed s.config.dailySeedReset now tz
      (true,
        { s with
          config := { s.config with shuffleSeed := some seed }
          schedule :=
            { s.schedule with
              shuffledOrder := shuffleArray videos seed
              currentIndex := 0
              totalPlayed := 0
              generated := some now } })

/-! Concrete states used to exercise the model. -/

/-- Environment with neither `NODE_ENV=production` nor `BUILD_ENV` set. -/
def envOff : EnvFlags :=
  { nodeEnvProduction := false, buildEnv := false }

/-- A scheduler mid-run with a three-item schedule at cursor `0` and no
interference. -/
def cycleState : SchedulerState :=
  { schedule :=
      { generated := some 1
        shuffledOrder := [some "a", some "b", some "c"]
        currentIndex := 0
        totalPlayed := 0
        staticDetected := false
        currentVideo := none }
    config := defaultConfig
    isStaticActive := false
    staticTimer := false
    videoTimer := false }

/-- A scheduler with a non-empty schedule while interference is active. -/
def gateState : SchedulerState :=
  { schedule :=
      { generated := some 1
        shuffledOrder := [some "a"]
        currentIndex := 0
        totalPlayed := 0
        staticDetected := false
        currentVideo := none }
    config := defaultConfig
    isStaticActive := true
    staticTimer := true
    videoTimer := false }

/-- A scheduler in which no regeneration trigger holds: build regeneration
off, a fresh prior schedule whose length matches the one-item catalog. -/
def keepState : SchedulerState :=
  { schedule :=
      { generated := some 500
        shuffledOrder := [some "a"]
        currentIndex := 0
        totalPlayed := 0
        staticDetected := false
        currentVideo := none }
    config := { defaultConfig with regenerateOnBuild := false }
    isStaticActive := false
    staticTimer := false
    videoTimer := false }

/-- A scheduler under the default configuration that has already served
five items. -/
def playedState : SchedulerState :=
  { schedule :=
      { generated := some 500
        shuffledOrder := [some "a"]
        currentIndex := 0
        totalPlayed := 5
        staticDetected := false
        currentVideo := none }
    config := defaultConfig
    isStaticActive := false
    staticTimer := false
    videoTimer := false }

/-- A quiescent scheduler with a video playing, used to drive the
interference guard. -/
def guardState : SchedulerState :=
  { schedule :=
      { generated := some 500
        shuffledOrder := [some "a"]
        currentIndex := 0
        totalPlayed := 1
        staticDetected := false
        currentVideo := some "a" }
    config := defaultConfig
    isStaticActive := false
    staticTimer := false
    videoTimer := true }

/-- A persisted configuration record carrying an invalid (negative)
interference threshold. -/
def badConfig : PartialConfig :=
  { staticDetectionThreshold := some (-1) }

/-! Helper lemmas about the seeded random number generator. -/

theorem seededNext_nonneg {s : Int} (h : 0 ≤ s) : 0 ≤ seededNext s := by
  have h1 : 0 ≤ s * 9301 + 49297 := by omega
  exact Int.tmod_nonneg 233280 h1

theorem seededNext_lt (s : Int) : seededNext s < 233280 :=
  Int.tmod_lt_of_pos _ (by norm_num)

theorem randIdx_nonneg {s : Int} (h : 0 ≤ s) (c : Nat) : 0 ≤ randIdx s c :=
  Int.fdiv_nonneg (mul_nonneg h (by positivity)) (by norm_num)

theorem randIdx_lt {s : Int} (h1 : s < 233280) {c : Nat} (hc : 0 < c) :
    randIdx s c < (c : Int) := by
  unfold randIdx
  rw [Int.fdiv_eq_ediv _ (by norm_num)]
  rw [Int.ediv_lt_iff_lt_mul (by norm_num)]
  have hc' : (0 : Int) < (c : Int) := by exact_mod_cast hc
  have := mul_lt_mul_of_pos_right h1 hc'
  linarith [this, mul_comm (233280 : Int) (c : Int)]

/-! Helper lemmas for the Fisher–Yates permutation argument. -/

theorem finIntCast_inj {n : Nat} {a b : Fin n} :
    (((a : Nat) : Int) = ((b : Nat) : Int)) ↔ a = b := by
  constructor
  · intro h
    exact Fin.ext (by exact_mod_cast h)
  · intro h
    subst h
    rfl

theorem readArray_swapAt_perm {α : Type} (f : Int → Option α) {n : Nat} (i j : Fin n) :
    (readArray (swapAt f ((i : Nat) : Int) ((j : Nat) : Int)) n).Perm (readArray f n) := by
  unfold readArray
  have he : (fun k : Fin n => swapAt f ((i : Nat) : Int) ((j : Nat) : Int) ((k : Nat) : Int))
      = (fun k : Fin n => f (((Equiv.swap i j k : Fin n) : Nat) : Int)) := by
    funext k
    by_cases hki : k = i
    · subst hki
      simp [swapAt, Equiv.swap_apply_left]
    · by_cases hkj : k = j
      · subst hkj
        have hne : ¬(((k : Nat) : Int) = ((i : Nat) : Int)) := fun h => hki (finIntCast_inj.mp h)
        simp [swapAt, hne, Equiv.swap_apply_right]
      · have hne1 : ¬(((k : Nat) : Int) = ((i : Nat) : Int)) := fun h => hki (finIntCast_inj.mp h)
        have hne2 : ¬(((k : Nat) : Int) = ((j : Nat) : Int)) := fun h => hkj (finIntCast_inj.mp h)
        simp [swapAt, hne1, hne2, Equiv.swap_apply_of_ne_of_ne hki hkj]
  rw [he]
  exact Equiv.Perm.ofFn_comp_perm (Equiv.swap i j) (fun k : Fin n => f ((k : Nat) : Int))

theorem fyLoop_shuffled_perm {α : Type} (n : Nat) :
    ∀ (k : Nat) (s : JSArrays α) (seed : Int), k ≤ n → 0 ≤ seed →
    (readArray ((fyLoop s seed k).1).shuffled n).Perm (readArray s.shuffled n) := by
  intro k
  induction k with
  | zero =>
    intro s seed _ _
    exact List.Perm.refl _
  | succ k ih =>
    intro s seed hk hs
    have hs' : 0 ≤ seededNext seed := seededNext_nonneg hs
    have hlt : seededNext seed < 233280 := seededNext_lt seed
    have hkn : k < n := Nat.lt_of_lt_of_le (Nat.lt_succ_self k) hk
    have hj0 : 0 ≤ randIdx (seededNext seed) (k + 1) := randIdx_nonneg hs' _
    have hjlt : randIdx (seededNext seed) (k + 1) < ((k + 1 : Nat) : Int) :=
      randIdx_lt hlt (Nat.succ_pos k)
    have hjn : (randIdx (seededNext seed) (k + 1)).toNat < n := by omega
    have hstep : (fyLoop s seed (k + 1)).1 = (fyLoop { s with shuffled := swapAt s.shuffled (k : Int) (randIdx (seededNext seed) (k + 1)) } (seededNext seed) k).1 := by
      simp [fyLoop]
    rw [hstep]
    refine (ih _ (seededNext seed) (le_of_lt hkn) hs').trans ?_
    have hcast :
        ((((⟨(randIdx (seededNext seed) (k + 1)).toNat, hjn⟩ : Fin n) : Nat)) : Int)
          = randIdx (seededNext seed) (k + 1) := Int.toNat_of_nonneg hj0
    have hperm := readArray_swapAt_perm s.shuffled (⟨k, hkn⟩ : Fin n)
      (⟨(randIdx (seededNext seed) (k + 1)).toNat, hjn⟩ : Fin n)
    rw [hcast] at hperm
    exact hperm

theorem readArray_listToMap {α : Type} (l : List α) :
    readArray (listToMap l) l.length = l.map some := by
  have he : (fun k : Fin l.length => listToMap l ((k : Nat) : Int))
      = (fun k : Fin l.length => some (l.get k)) := by
    funext k
    simp [listToMap, List.get?_eq_get k.isLt]
  rw [readArray, he]
  rw [show (fun k : Fin l.length => some (l.get k)) = (some ∘ l.get) from rfl]
  rw [← List.map_ofFn, List.ofFn_get]

theorem fyLoop_input_invariant {α : Type} :
    ∀ (k : Nat) (s : JSArrays α) (seed : Int), ((fyLoop s seed k).1).input = s.input := by
  intro k
  induction k with
  | zero =>
    intro s seed
    rfl
  | succ k ih =>
    intro s seed
    have hstep : (fyLoop s seed (k + 1)).1 = (fyLoop { s with shuffled := swapAt s.shuffled (k : Int) (randIdx (seededNext seed) (k + 1)) } (seededNext seed) k).1 := by
      simp [fyLoop]
    rw [hstep, ih]

/-! Claim theorems. -/

/-- Claim C1: the spec claims `generateUTCSeed` in daily mode depends only on the
UTC calendar date of the instant, never on the caller's host timezone.  The
code builds the epoch-day index with the local-time `Date(Y, M, D)`
constructor, so a host two hours east of UTC (offset `-120` minutes)
computes a different seed than a UTC host for the very same instant:
`620000` versus `619969` at `2024-10-04T12:00:00Z`. -/
theorem generateUTCSeed_depends_on_host_timezone :
    generateUTCSeed true 1728043200000 0 = 620000 ∧
    generateUTCSeed true 1728043200000 (-120) = 619969 ∧
    generateUTCSeed true 1728043200000 0 ≠ generateUTCSeed true 1728043200000 (-120) := by
  refine ⟨by decide, by decide, by decide⟩

/-- Claim C2 (counterexample): with the negative seed `-123456` the seeded random
index becomes `-1`, the swap writes `undefined` into the copy, and
`shuffleArray ["a","b"] (-123456)` evaluates to `[some "b", none]`, which is
not a permutation of the input — refuting the claim for arbitrary integer
seeds. -/
theorem shuffleArray_negative_seed_not_perm :
    ¬ (shuffleArray ["a", "b"] (-123456)).Perm (["a", "b"].map some) := by decide

/-- Claim C2 (amended): for every non-negative integer seed, `shuffleArray`
returns a permutation of its input — same length, same elements with the
same multiplicities. -/
theorem shuffleArray_perm_of_nonneg_seed {α : Type} (arr : List α) (seed : Int)
    (h : 0 ≤ seed) : (shuffleArray arr seed).Perm (arr.map some) := by
  unfold shuffleArray
  have h1 := fyLoop_shuffled_perm arr.length arr.length (initArrays arr) seed le_rfl h
  have h2 : readArray (initArrays arr).shuffled arr.length = arr.map some :=
    readArray_listToMap arr
  rw [h2] at h1
  exact h1

/-- Witness for C2's amended theorem at the concrete seed `620000`. -/
theorem shuffleArray_perm_of_nonneg_seed_witness :
    (0 : Int) ≤ 620000 ∧
    (shuffleArray ["a", "b", "c", "d", "e"] 620000).Perm
      (["a", "b", "c", "d", "e"].map some) :=
  ⟨by norm_num, shuffleArray_perm_of_nonneg_seed ["a", "b", "c", "d", "e"] 620000 (by norm_num)⟩

/-- Claim C10: `shuffleArray` shuffles only the spread copy; the caller's input
array component of the heap is untouched by the whole Fisher–Yates loop, so
the input ordering is never mutated in place. -/
theorem shuffleArray_leaves_input_unchanged {α : Type} (arr : List α) (seed : Int) :
    ((fyLoop (initArrays arr) seed arr.length).1).input = listToMap arr := by
  rw [fyLoop_input_invariant arr.length (initArrays arr) seed]
  rfl

/-! Helper lemmas about the playback and interference operations. -/

theorem stopCurrentVideo_isStaticActive (s : SchedulerState) :
    (stopCurrentVideo s).isStaticActive = s.isStaticActive := by
  unfold stopCurrentVideo
  split <;> rfl

theorem stopCurrentVideo_config (s : SchedulerState) :
    (stopCurrentVideo s).config = s.config := by
  unfold stopCurrentVideo
  split <;> rfl

theorem onStaticDetected_config (s : SchedulerState) (level : ℚ) :
    (onStaticDetected s level).config = s.config := by
  unfold onStaticDetected stopCurrentVideo
  split <;> split <;> first | rfl | (split <;> rfl)

theorem onStaticDetected_active (s : SchedulerState) (level : ℚ) :
    (onStaticDetected s level).isStaticActive
      = decide (s.config.staticDetectionThreshold < level) := by
  unfold onStaticDetected
  by_cases h : s.config.staticDetectionThreshold < level
  · by_cases ha : s.isStaticActive <;>
      simp [h, ha, stopCurrentVideo_isStaticActive]
  · by_cases ha : s.isStaticActive <;> simp [h, ha]

theorem playN_succ (k : Nat) (s : SchedulerState) :
    playN (k + 1) s
      = ((playNextVideo s).1 :: (playN k (playNextVideo s).2).1,
         (playN k (playNextVideo s).2).2) := by
  rcases hp : playNextVideo s with ⟨v, s'⟩
  simp [playN, hp]

theorem playN_run :
    ∀ (k : Nat) (s : SchedulerState),
    s.isStaticActive = false →
    s.schedule.currentIndex < s.schedule.shuffledOrder.length →
    s.schedule.currentIndex + k ≤ s.schedule.shuffledOrder.length →
    (playN k s).1 = (s.schedule.shuffledOrder.drop s.schedule.currentIndex).take k ∧
    (playN k s).2.schedule.shuffledOrder = s.schedule.shuffledOrder ∧
    (playN k s).2.schedule.currentIndex
      = (s.schedule.currentIndex + k) % s.schedule.shuffledOrder.length ∧
    (playN k s).2.isStaticActive = false ∧
    (playN k s).2.schedule.totalPlayed = s.schedule.totalPlayed + k := by
  intro k
  induction k with
  | zero =>
    intro s hst hi _
    exact ⟨by simp [playN], rfl, by simp [playN, Nat.mod_eq_of_lt hi], hst, rfl⟩
  | succ k ih =>
    intro s hst hi hk
    have hn0 : s.schedule.shuffledOrder.length ≠ 0 := by omega
    have hstep : playNextVideo s = (s.schedule.shuffledOrder.get ⟨s.schedule.currentIndex, hi⟩, { s with schedule := { s.schedule with currentVideo := s.schedule.shuffledOrder.get ⟨s.schedule.currentIndex, hi⟩, totalPlayed := s.schedule.totalPlayed + 1, currentIndex := (s.schedule.currentIndex + 1) % s.schedule.shuffledOrder.length } }) := by
      simp [playNextVideo, hst, hn0, List.getElem?_eq_getElem hi]
    by_cases hend : s.schedule.currentIndex + 1 = s.schedule.shuffledOrder.length
    · have hk0 : k = 0 := by omega
      subst hk0
      have hdrop1 : s.schedule.shuffledOrder.drop (s.schedule.currentIndex + 1) = [] :=
        List.drop_eq_nil_of_le (by omega)
      rw [playN_succ, hstep]
      refine ⟨?_, rfl, ?_, hst, ?_⟩
      · show s.schedule.shuffledOrder.get ⟨s.schedule.currentIndex, hi⟩ :: ([] : List (Option String))
          = (s.schedule.shuffledOrder.drop s.schedule.currentIndex).take 1
        rw [← List.getElem_cons_drop s.schedule.shuffledOrder s.schedule.currentIndex hi, hdrop1]
        simp
      · show (s.schedule.currentIndex + 1) % s.schedule.shuffledOrder.length
          = (s.schedule.currentIndex + (0 + 1)) % s.schedule.shuffledOrder.length
        congr 1
      · show s.schedule.totalPlayed + 1 = s.schedule.totalPlayed + (0 + 1)
        congr 1
    · have hi1 : s.schedule.currentIndex + 1 < s.schedule.shuffledOrder.length := by omega
      have hi' : (s.schedule.currentIndex + 1) % s.schedule.shuffledOrder.length
          = s.schedule.currentIndex + 1 := Nat.mod_eq_of_lt hi1
      have hs1a : (playNextVideo s).2.isStaticActive = false := by
        rw [hstep]; exact hst
      have hs1b : (playNextVideo s).2.schedule.currentIndex
          < (playNextVideo s).2.schedule.shuffledOrder.length := by
        rw [hstep]
        show (s.schedule.currentIndex + 1) % s.schedule.shuffledOrder.length
          < s.schedule.shuffledOrder.length
        omega
      have hs1c : (playNextVideo s).2.schedule.currentIndex + k
          ≤ (playNextVideo s).2.schedule.shuffledOrder.length := by
        rw [hstep]
        show (s.schedule.currentIndex + 1) % s.schedule.shuffledOrder.length + k
          ≤ s.schedule.shuffledOrder.length
        omega
      obtain ⟨h1, h2, h3, h4, h5⟩ := ih (playNextVideo s).2 hs1a hs1b hs1c
      refine ⟨?_, ?_, ?_, ?_, ?_⟩
      · rw [playN_succ, h1, hstep]
        show s.schedule.shuffledOrder.get ⟨s.schedule.currentIndex, hi⟩
            :: ((s.schedule.shuffledOrder.drop
                  ((s.schedule.currentIndex + 1) % s.schedule.shuffledOrder.length)).take k)
          = (s.schedule.shuffledOrder.drop s.schedule.currentIndex).take (k + 1)
        rw [hi', ← List.getElem_cons_drop s.schedule.shuffledOrder s.schedule.currentIndex hi,
          List.take_succ_cons]
        rfl
      · rw [playN_succ, h2, hstep]
      · rw [playN_succ, h3, hstep]
        show ((s.schedule.currentIndex + 1) % s.schedule.shuffledOrder.length + k)
              % s.schedule.shuffledOrder.length
          = (s.schedule.currentIndex + (k + 1)) % s.schedule.shuffledOrder.length
        rw [hi']
        congr 1
        omega
      · rw [playN_succ]
        exact h4
      · rw [playN_succ, h5, hstep]
        show s.schedule.totalPlayed + 1 + k = s.schedule.totalPlayed + (k + 1)
        omega

/-- Claim C3: starting from cursor `0` over a non-empty `N`-item order with
no interference, `N` calls to `playNextVideo` return exactly the stored
permutation, item by item in order; the cursor is back at `0` afterwards
(a normal wrap), and call `N + 1` returns the permutation's first item
again. -/
theorem playNextVideo_full_cycle (s : SchedulerState)
    (hst : s.isStaticActive = false)
    (hc : s.schedule.currentIndex = 0)
    (hn : 0 < s.schedule.shuffledOrder.length) :
    (playN s.schedule.shuffledOrder.length s).1 = s.schedule.shuffledOrder ∧
    ((playN s.schedule.shuffledOrder.length s).2).schedule.currentIndex = 0 ∧
    (playNextVideo ((playN s.schedule.shuffledOrder.length s).2)).1
      = s.schedule.shuffledOrder.get ⟨0, hn⟩ := by
  have hrun := playN_run s.schedule.shuffledOrder.length s hst (by omega) (by omega)
  obtain ⟨h1, h2, h3, h4, _⟩ := hrun
  have hcur : ((playN s.schedule.shuffledOrder.length s).2).schedule.currentIndex = 0 := by
    rw [h3, hc, Nat.zero_add, Nat.mod_self]
  refine ⟨?_, hcur, ?_⟩
  · rw [h1, hc, List.drop_zero, List.take_length]
  · have hn0 : ((playN s.schedule.shuffledOrder.length s).2).schedule.shuffledOrder.length ≠ 0 := by
      rw [h2]; omega
    have hget : ((playN s.schedule.shuffledOrder.length s).2).schedule.shuffledOrder[(0 : Nat)]?
        = some (s.schedule.shuffledOrder.get ⟨0, hn⟩) := by
      rw [h2]
      exact List.getElem?_eq_getElem hn
    simp [playNextVideo, h4, hn0, hcur, hget]

/-- Witness for C3 on a concrete three-item schedule. -/
theorem playNextVideo_full_cycle_witness :
    cycleState.isStaticActive = false ∧
    cycleState.schedule.currentIndex = 0 ∧
    0 < cycleState.schedule.shuffledOrder.length ∧
    ((playN cycleState.schedule.shuffledOrder.length cycleState).1
        = cycleState.schedule.shuffledOrder ∧
      ((playN cycleState.schedule.shuffledOrder.length cycleState).2).schedule.currentIndex = 0 ∧
      (playNextVideo ((playN cycleState.schedule.shuffledOrder.length cycleState).2)).1
        = cycleState.schedule.shuffledOrder.get ⟨0, by decide⟩) :=
  ⟨rfl, rfl, by decide, playNextVideo_full_cycle cycleState rfl rfl (by decide)⟩

/-- Claim C4 (counterexample): with interference active and a one-item
order, `playNextVideo` returns `null` and leaves the state untouched — so
the operation does gate on the interference flag, contrary to the claim
that it advances irrespective of it. -/
theorem playNextVideo_gates_on_interference :
    gateState.schedule.shuffledOrder.length = 1 ∧
    gateState.isStaticActive = true ∧
    playNextVideo gateState = (none, gateState) := by
  refine ⟨rfl, rfl, ?_⟩
  simp [playNextVideo, gateState]

/-- Claim C4 (amended): when the interference flag is clear and the cursor
is in range, `playNextVideo` returns `permutation[cursor]`, records it as
current, increments `totalPlayed` by one and advances the cursor modulo the
length; when the flag is set it instead returns `null` and changes
nothing. -/
theorem playNextVideo_advances_when_clear (s : SchedulerState)
    (hst : s.isStaticActive = false)
    (hi : s.schedule.currentIndex < s.schedule.shuffledOrder.length) :
    (playNextVideo s).1 = s.schedule.shuffledOrder.get ⟨s.schedule.currentIndex, hi⟩ ∧
    (playNextVideo s).2.schedule.currentVideo
      = s.schedule.shuffledOrder.get ⟨s.schedule.currentIndex, hi⟩ ∧
    (playNextVideo s).2.schedule.totalPlayed = s.schedule.totalPlayed + 1 ∧
    (playNextVideo s).2.schedule.currentIndex
      = (s.schedule.currentIndex + 1) % s.schedule.shuffledOrder.length ∧
    (playNextVideo s).2.schedule.shuffledOrder = s.schedule.shuffledOrder ∧
    (∀ s' : SchedulerState, s'.isStaticActive = true → playNextVideo s' = (none, s')) := by
  have hn0 : s.schedule.shuffledOrder.length ≠ 0 := by omega
  have hget : s.schedule.shuffledOrder[s.schedule.currentIndex]?
      = some (s.schedule.shuffledOrder.get ⟨s.schedule.currentIndex, hi⟩) :=
    List.getElem?_eq_getElem hi
  refine ⟨?_, ?_, ?_, ?_, ?_, ?_⟩
  · simp [playNextVideo, hst, hn0, hget]
  · simp [playNextVideo, hst, hn0, hget]
  · simp [playNextVideo, hst, hn0]
  · simp [playNextVideo, hst, hn0]
  · simp [playNextVideo, hst, hn0]
  · intro s' hs'
    simp [playNextVideo, hs']

/-- Witness for C4's amended theorem on a concrete clear-state schedule. -/
theorem playNextVideo_advances_when_clear_witness :
    cycleState.isStaticActive = false ∧
    cycleState.schedule.currentIndex < cycleState.schedule.shuffledOrder.length ∧
    ((playNextVideo cycleState).1
        = cycleState.schedule.shuffledOrder.get ⟨cycleState.schedule.currentIndex, by decide⟩ ∧
      (playNextVideo cycleState).2.schedule.currentVideo
        = cycleState.schedule.shuffledOrder.get ⟨cycleState.schedule.currentIndex, by decide⟩ ∧
      (playNextVideo cycleState).2.schedule.totalPlayed
        = cycleState.schedule.totalPlayed + 1 ∧
      (playNextVideo cycleState).2.schedule.currentIndex
        = (cycleState.schedule.currentIndex + 1) % cycleState.schedule.shuffledOrder.length ∧
      (playNextVideo cycleState).2.schedule.shuffledOrder
        = cycleState.schedule.shuffledOrder ∧
      (∀ s' : SchedulerState, s'.isStaticActive = true → playNextVideo s' = (none, s'))) :=
  ⟨rfl, by decide, playNextVideo_advances_when_clear cycleState rfl (by decide)⟩

/-- Claim C5 (counterexample): in a state where no regeneration trigger
holds — build regeneration off, empty environment, fresh matching schedule,
`force = false` — `generateSchedule` keeps the schedule but returns `true`,
not the claimed `false`. -/
theorem generateSchedule_keep_branch_returns_true :
    generateSchedule keepState false envOff 1000 0 ["a"] = (true, keepState) := by
  simp [generateSchedule, keepState, defaultConfig, envOff]

/-- Claim C5 (amended): when no regeneration trigger holds the schedule is
kept unchanged, but the call returns `true` (the boolean reports that a
usable schedule exists, not that regeneration happened); `false` is
returned only for an empty catalog. -/
theorem generateSchedule_no_trigger_keeps (s : SchedulerState) (env : EnvFlags)
    (now g tz : Int) (videos : List String)
    (hv : videos ≠ [])
    (henv1 : env.nodeEnvProduction = false) (henv2 : env.buildEnv = false)
    (hbuild : s.config.regenerateOnBuild = false)
    (hgen : s.schedule.generated = some g) (hg0 : g ≠ 0)
    (hlen : s.schedule.shuffledOrder.length = videos.length)
    (hage : now - g < s.config.scheduleRebuildInterval) :
    generateSchedule s false env now tz videos = (true, s) := by
  have hv0 : ¬ videos.length = 0 := fun h => hv (List.length_eq_zero.mp h)
  simp [generateSchedule, hv0, hgen, hg0, henv1, henv2, hbuild, hlen, not_le.mpr hage]

/-- Witness for C5's amended theorem on the concrete no-trigger state. -/
theorem generateSchedule_no_trigger_keeps_witness :
    (["a"] : List String) ≠ [] ∧
    envOff.nodeEnvProduction = false ∧
    envOff.buildEnv = false ∧
    keepState.config.regenerateOnBuild = false ∧
    keepState.schedule.generated = some 500 ∧
    (500 : Int) ≠ 0 ∧
    keepState.schedule.shuffledOrder.length = (["a"] : List String).length ∧
    (1000 : Int) - 500 < keepState.config.scheduleRebuildInterval ∧
    generateSchedule keepState false envOff 1000 0 ["a"] = (true, keepState) := by
  refine ⟨by decide, rfl, rfl, rfl, rfl, by decide, rfl, by decide, ?_⟩
  exact generateSchedule_no_trigger_keeps keepState envOff 1000 500 0 ["a"]
    (by decide) rfl rfl rfl rfl (by decide) rfl (by decide)

/-- Claim C6: the interference guard is a two-state machine: after a report
the suppressed flag equals whether the level exceeded the threshold, and a
second report on the same side of the threshold leaves the entire state
exactly unchanged (idempotence per side). -/
theorem onStaticDetected_two_state (s : SchedulerState) (l l' : ℚ)
    (hside : s.config.staticDetectionThreshold < l ↔ s.config.staticDetectionThreshold < l') :
    (onStaticDetected s l).isStaticActive = decide (s.config.staticDetectionThreshold < l) ∧
    onStaticDetected (onStaticDetected s l) l' = onStaticDetected s l := by
  refine ⟨onStaticDetected_active s l, ?_⟩
  have hcfg : (onStaticDetected s l).config = s.config := onStaticDetected_config s l
  by_cases h : s.config.staticDetectionThreshold < l
  · have h' : s.config.staticDetectionThreshold < l' := hside.mp h
    have hact : (onStaticDetected s l).isStaticActive = true := by
      rw [onStaticDetected_active]; simp [h]
    set t := onStaticDetected s l with ht
    show onStaticDetected t l' = t
    unfold onStaticDetected
    rw [hcfg, hact]
    simp [h']
  · have h' : ¬ s.config.staticDetectionThreshold < l' := fun hh => h (hside.mpr hh)
    have hact : (onStaticDetected s l).isStaticActive = false := by
      rw [onStaticDetected_active]; simp [h]
    set t := onStaticDetected s l with ht
    show onStaticDetected t l' = t
    unfold onStaticDetected
    rw [hcfg, hact]
    simp [h']

/-- Witness for C6 with two above-threshold levels against the default
threshold `0.3`. -/
theorem onStaticDetected_two_state_witness :
    ((guardState.config.staticDetectionThreshold < (1 : ℚ) / 2)
        ↔ (guardState.config.staticDetectionThreshold < (2 : ℚ) / 5)) ∧
    ((onStaticDetected guardState ((1 : ℚ) / 2)).isStaticActive
        = decide (guardState.config.staticDetectionThreshold < (1 : ℚ) / 2) ∧
      onStaticDetected (onStaticDetected guardState ((1 : ℚ) / 2)) ((2 : ℚ) / 5)
        = onStaticDetected guardState ((1 : ℚ) / 2)) :=
  ⟨by norm_num [guardState, defaultConfig],
    onStaticDetected_two_state guardState ((1 : ℚ) / 2) ((2 : ℚ) / 5)
      (by norm_num [guardState, defaultConfig])⟩

/-- Claim C7 (counterexample): loading a persisted configuration with a
negative interference threshold adopts the invalid value verbatim — it is
neither clamped nor replaced with the default `0.3`. -/
theorem loadConfig_adopts_negative_threshold :
    (loadConfig defaultConfig (some badConfig)).staticDetectionThreshold = -1 ∧
    ((-1 : ℚ) < 0) ∧
    defaultConfig.staticDetectionThreshold = 3 / 10 ∧
    (loadConfig defaultConfig (some badConfig)).staticDetectionThreshold
      ≠ defaultConfig.staticDetectionThreshold := by
  refine ⟨rfl, by norm_num, rfl, by norm_num [loadConfig, mergeConfig, badConfig, defaultConfig]⟩

/-- Claim C7 (amended): `loadConfig` merges persisted values over the
defaults with no validation at all: any present value, even a negative
threshold, is adopted as-is (load errors merely keep the defaults; there is
no crash, but no clamping either). -/
theorem loadConfig_no_validation (c : SchedulerConfig) (d : PartialConfig) (v : ℚ)
    (hv : d.staticDetectionThreshold = some v) (hneg : v < 0) :
    (loadConfig c (some d)).staticDetectionThreshold = v ∧
    (loadConfig c (some d)).staticDetectionThreshold < 0 ∧
    loadConfig c none = c := by
  refine ⟨?_, ?_, rfl⟩ <;> simp [loadConfig, mergeConfig, hv, hneg]

/-- Witness for C7's amended theorem at the concrete invalid record. -/
theorem loadConfig_no_validation_witness :
    badConfig.staticDetectionThreshold = some (-1) ∧
    ((-1 : ℚ) < 0) ∧
    ((loadConfig defaultConfig (some badConfig)).staticDetectionThreshold = -1 ∧
      (loadConfig defaultConfig (some badConfig)).staticDetectionThreshold < 0 ∧
      loadConfig defaultConfig none = defaultConfig) :=
  ⟨rfl, by norm_num, loadConfig_no_validation defaultConfig badConfig (-1) rfl (by norm_num)⟩

/-- Claim C8 (counterexample): schedule regeneration resets `totalPlayed`
from `5` to `0`, so the play count is not monotone across every scheduler
operation — regeneration decrements it. -/
theorem generateSchedule_resets_totalPlayed :
    playedState.schedule.totalPlayed = 5 ∧
    ((generateSchedule playedState false envOff 1000 0 ["a"]).2).schedule.totalPlayed = 0 := by
  refine ⟨rfl, ?_⟩
  simp [generateSchedule, playedState, defaultConfig]

/-- Claim C8 (amended): `totalPlayed` is never decreased by `playNextVideo`
(including on cycle wrap) and is untouched by interference reports and by
`stopCurrentVideo`; only schedule regeneration resets it to `0`, matching
its documented meaning of items served since `generated_at`. -/
theorem totalPlayed_monotone_outside_regeneration (s : SchedulerState) (level : ℚ) :
    s.schedule.totalPlayed ≤ ((playNextVideo s).2).schedule.totalPlayed ∧
    ((onStaticDetected s level).schedule.totalPlayed = s.schedule.totalPlayed) ∧
    ((stopCurrentVideo s).schedule.totalPlayed = s.schedule.totalPlayed) := by
  refine ⟨?_, ?_, ?_⟩
  · by_cases h1 : s.isStaticActive <;>
      by_cases h2 : s.schedule.shuffledOrder.length = 0 <;>
        simp [playNextVideo, h1, h2]
  · unfold onStaticDetected stopCurrentVideo
    split <;> split <;> first | rfl | (split <;> rfl)
  · unfold stopCurrentVideo
    split <;> rfl

/-- Claim C9: with `regenerateOnBuild = true` (the constructor default),
`generateSchedule` regenerates on every call with a non-empty catalog —
fresh permutation from the UTC seed, cursor and play count reset to `0` —
regardless of the `force` argument, the environment, the schedule's age or
whether the catalog changed. -/
theorem generateSchedule_always_regenerates_by_default (s : SchedulerState)
    (force : Bool) (env : EnvFlags) (now tz : Int) (videos : List String)
    (hb : s.config.regenerateOnBuild = true) (hv : videos ≠ []) :
    generateSchedule s force env now tz videos = (true, { s with config := { s.config with shuffleSeed := some (generateUTCSeed s.config.dailySeedReset now tz) }, schedule := { s.schedule with shuffledOrder := shuffleArray videos (generateUTCSeed s.config.dailySeedReset now tz), currentIndex := 0, totalPlayed := 0, generated := some now } }) := by
  have hv0 : ¬ videos.length = 0 := fun h => hv (List.length_eq_zero.mp h)
  simp [generateSchedule, hv0, hb]

/-- Witness for C9 at the concrete default-configured state. -/
theorem generateSchedule_always_regenerates_by_default_witness :
    playedState.config.regenerateOnBuild = true ∧
    (["a"] : List String) ≠ [] ∧
    generateSchedule playedState false envOff 1000 0 ["a"] = (true, { playedState with config := { playedState.config with shuffleSeed := some (generateUTCSeed playedState.config.dailySeedReset 1000 0) }, schedule := { playedState.schedule with shuffledOrder := shuffleArray ["a"] (generateUTCSeed playedState.config.dailySeedReset 1000 0), currentIndex := 0, totalPlayed := 0, generated := some 1000 } }) :=
  ⟨rfl, by decide,
    generateSchedule_always_regenerates_by_default playedState false envOff 1000 0 ["a"] rfl (by decide)⟩

end Schwepe
